import Mathlib

set_option maxHeartbeats 1000000

/-!
Verification development for the Routine-Runner task scheduler.

The Rust sources are shallowly embedded: UTC instants and local wall-clock
times are integers counting whole seconds, local calendar dates are integer
day numbers (`Int.ediv _ 86400` is floor division, matching chrono's
`date_naive` day arithmetic), and the local timezone is a fixed offset
`tz` with `utc = local - tz` (daylight-saving transitions are not modelled,
so `Local.from_local_datetime(..).latest()` always resolves).  OS effects
(filesystem, process probes, spawning) are injected through explicit
environment records.  The one Rust panic reachable from this code
(`subsec_nanos() % max` with `max = 0` in `rand_jitter`) is made explicit
with an `Except` error value.
-/

namespace RoutineRunner

/-! ## Data model (src/models.rs) -/

inductive TargetType
  | exe | file | folder | shortcut | url
deriving DecidableEq

inductive RunWindowStyle
  | normal | minimized | hidden
deriving DecidableEq

inductive WaitPolicy
  | dontWait
  | waitForExit (timeout_seconds : Option Nat)
deriving DecidableEq

inductive Trigger
  | onLogin (enabled : Bool) (delay_seconds : Nat)
  | oncePerDay (enabled : Bool) (earliest_time_local : Option String)
      (days_of_week : Option (List String))
  | dailyAt (enabled : Bool) (time_local : String)
      (days_of_week : Option (List String))
  | interval (enabled : Bool) (every_seconds : Nat) (jitter_seconds : Option Nat)
deriving DecidableEq

inductive Condition
  | networkAvailable
  | onAcPower
  | processNotRunning (process_name : String)
  | onlyIfPathExists
  | idleForSeconds (seconds : Nat)
deriving DecidableEq

inductive MisfirePolicy
  | runImmediately
  | skipIfLateOverSeconds (seconds : Nat)
deriving DecidableEq

inductive IfRunningAction
  | skip | restart | runAnyway
deriving DecidableEq

inductive RunResult
  | success | failed | skipped
deriving DecidableEq

inductive SkipReason
  | disabled | conditionFail | singleton | misfireSkip | pathMissing
  | alreadyRanToday | dayNotAllowed | paused | manualOverride
deriving DecidableEq

inductive RunStatus
  | started | success | failed | skipped
deriving DecidableEq

structure Task where
  id : String
  enabled : Bool
  name : String
  description : Option String
  target_type : TargetType
  path_or_url : String
  args : Option String
  working_dir : Option String
  start_delay_seconds : Nat
  run_window_style : RunWindowStyle
  wait_policy : WaitPolicy
  singleton : Bool
  priority : Option Int
  max_retries : Nat
  retry_backoff_seconds : Nat
  success_exit_codes : Option (List Int)
  misfire_policy : MisfirePolicy
  if_running_action : IfRunningAction
  triggers : List Trigger
  conditions : List Condition
  created_at_utc : Int
  updated_at_utc : Int
deriving DecidableEq

/-- `TaskState` from src/models.rs.  `last_run_date_local` is a local calendar
day number standing for the `"YYYY-MM-DD"` string the Rust code stores;
that formatting is injective in the day, so comparing day numbers is
equivalent to the string comparison the code performs. -/
structure TaskState where
  task_id : String
  last_run_date_local : Option Int
  last_run_at_utc : Option Int
  last_result : Option RunResult
  last_error : Option String
  next_run_at_utc : Option Int
deriving DecidableEq

structure RunLog where
  run_id : String
  task_id : String
  task_name : String
  trigger_type : String
  scheduled_time_utc : Option Int
  started_at_utc : Int
  finished_at_utc : Option Int
  status : RunStatus
  skip_reason : Option SkipReason
  exit_code : Option Int
  error_message : Option String
  output : Option String
deriving DecidableEq

/-! ## Time helpers -/

def digitVal (c : Char) : Nat := c.toNat - 48

/-- Greedy scan of at most two decimal digits, as chrono's numeric parsing of
`%H` / `%M` does (at least one digit required). -/
def takeUpTo2Digits : List Char → Option (Nat × List Char)
  | [] => none
  | c :: rest =>
    if c.isDigit then
      match rest with
      | c2 :: rest2 =>
        if c2.isDigit then some (digitVal c * 10 + digitVal c2, rest2)
        else some (digitVal c, c2 :: rest2)
      | [] => some (digitVal c, [])
    else none

/-- `NaiveTime::parse_from_str(s, "%H:%M")`, returning minutes since local
midnight.  The whole string must be consumed; hour and minute are range
checked like chrono does. -/
def parseHHMM (s : String) : Option Nat :=
  match takeUpTo2Digits s.toList with
  | some (h, c :: rest) =>
    if c = ':' then
      match takeUpTo2Digits rest with
      | some (m, []) => if h ≤ 23 ∧ m ≤ 59 then some (h * 60 + m) else none
      | _ => none
    else none
  | _ => none

/-- `weekday_to_string` composed with the weekday of a day number
(day 0 = 1970-01-01 = Thursday). -/
def weekdayName (day : Int) : String :=
  match (day % 7).toNat with
  | 0 => "Thu"
  | 1 => "Fri"
  | 2 => "Sat"
  | 3 => "Sun"
  | 4 => "Mon"
  | 5 => "Tue"
  | _ => "Wed"

def asciiLowerChar (c : Char) : Char :=
  if 65 ≤ c.toNat ∧ c.toNat ≤ 90 then Char.ofNat (c.toNat + 32) else c

/-- `str::eq_ignore_ascii_case`. -/
def eqIgnoreAsciiCase (a b : String) : Bool :=
  a.toList.map asciiLowerChar == b.toList.map asciiLowerChar

/-! ## TriggerEvaluator (src/scheduler.rs) -/

/-- The one Rust panic reachable from `compute_next_run`:
`subsec_nanos() % max` with `max = 0` in `rand_jitter`. -/
inductive PanicKind
  | remainderByZero
deriving DecidableEq

/-- `rand_jitter` (src/scheduler.rs lines 132-138) with the wall-clock
`subsec_nanos()` injected as `nanos`.  `u32 % 0` panics in Rust, which the
embedding surfaces as `.error .remainderByZero`. -/
def rand_jitter (nanos : Nat) (maxJ : Nat) : Except PanicKind Nat :=
  if maxJ = 0 then .error .remainderByZero else .ok (nanos % maxJ)

/-- One iteration of the `DailyAt` scan loop (src/scheduler.rs lines 67-89)
for a given `day_offset`.  `t` is the parsed target time in minutes.
With a fixed timezone offset `Local.from_local_datetime(..).latest()`
always resolves, so the DST-gap `continue` branch is absent. -/
def dailyAtCandidate (tz : Int) (days : Option (List String)) (nowLocal : Int)
    (t : Nat) (off : Nat) : Option Int :=
  let targetDate : Int := (nowLocal + (off : Int) * 86400) / 86400
  let targetLocal : Int := targetDate * 86400 + (t : Int) * 60
  if targetLocal ≤ nowLocal then none
  else
    match days with
    | none => some (targetLocal - tz)
    | some ds =>
      if ds.any (fun d => eqIgnoreAsciiCase d (weekdayName targetDate)) then
        some (targetLocal - tz)
      else none

/-- `compute_next_run` (src/scheduler.rs lines 7-118).  `nowLocal` is the
current local wall-clock in seconds, `tz` the fixed local offset
(`utc = local - tz`), `nanos` the injected `subsec_nanos()` feeding
`rand_jitter`.  Returns the next run as a UTC instant. -/
def compute_next_run (tz : Int) (trigger : Trigger) (nowLocal : Int)
    (state : TaskState) (nanos : Nat) : Except PanicKind (Option Int) :=
  match trigger with
  | .onLogin enabled _ =>
    if enabled = false then .ok none
    else .ok none -- OnLogin only runs at app startup, not scheduled
  | .oncePerDay enabled earliest days =>
    if enabled = false then .ok none
    else
      let today : Int := nowLocal / 86400
      if state.last_run_date_local = some today then .ok none -- already ran today
      else
        let dayOk : Bool :=
          match days with
          | none => true
          | some ds => ds.any (fun d => eqIgnoreAsciiCase d (weekdayName today))
        if dayOk = false then .ok none -- not the right day
        else
          let earlyResult : Option Int :=
            match earliest with
            | none => none
            | some s =>
              match parseHHMM s with
              | none => none -- parse failure falls through, like `if let Ok`
              | some t =>
                if nowLocal - today * 86400 < (t : Int) * 60 then
                  some (today * 86400 + (t : Int) * 60 - tz)
                else none
          match earlyResult with
          | some r => .ok (some r) -- schedule for earliest time today
          | none => .ok (some (nowLocal - tz)) -- ready to run now
  | .dailyAt enabled timeStr days =>
    if enabled = false then .ok none
    else
      match parseHHMM timeStr with
      | none => .ok none
      | some t => .ok ((List.range 8).findSome? (dailyAtCandidate tz days nowLocal t))
  | .interval enabled every jitter =>
    if enabled = false ∨ every < 60 then .ok none
    else
      let nowUtc : Int := nowLocal - tz
      let base : Int := state.last_run_at_utc.getD nowUtc
      let next : Int := base + (every : Int)
      let nextE : Except PanicKind Int :=
        match jitter with
        | none => .ok next
        | some j =>
          match rand_jitter nanos j with
          | .error k => .error k
          | .ok off => .ok (next + (off : Int))
      match nextE with
      | .error k => .error k
      | .ok next2 =>
        if next2 ≤ nowUtc then .ok (some nowUtc) -- in the past: schedule for now
        else .ok (some next2)

/-- `check_misfire` (src/scheduler.rs lines 141-153). -/
def check_misfire (policy : MisfirePolicy) (scheduled now : Int) : Bool :=
  match policy with
  | .runImmediately => false
  | .skipIfLateOverSeconds s => decide (now - scheduled > (s : Int))

/-! ## ConditionEvaluator (src/conditions.rs) -/

/-- Outcomes of the OS probes behind the condition checks.
`dnsResolves = none` models a `to_socket_addrs` error, `some b` a successful
resolution yielding (non)empty addresses; `powerStatus = none` models a
`GetSystemPowerStatus` failure, `some n` the returned `ACLineStatus`;
`tasklistOutput name = none` models a `tasklist` spawn failure, `some out`
its captured stdout. -/
structure CondEnv where
  dnsResolves : Option Bool
  powerStatus : Option Nat
  tasklistOutput : String → Option String

def toLowerAscii (s : String) : String := String.mk (s.toList.map asciiLowerChar)

def listContainsSub (hay needle : List Char) : Bool :=
  match hay with
  | [] => needle.isEmpty
  | _ :: rest => needle.isPrefixOf hay || listContainsSub rest needle

def stringContains (hay needle : String) : Bool :=
  listContainsSub hay.toList needle.toList

/-- `check_network_available` (src/conditions.rs lines 28-44, windows branch):
a socket-address error resolves to `Ok(false)`. -/
def check_network_available (env : CondEnv) : Except String Bool :=
  match env.dnsResolves with
  | some b => .ok b
  | none => .ok false

/-- `check_on_ac_power` (src/conditions.rs lines 47-69, windows branch):
a failed power query is treated as `Ok(true)`. -/
def check_on_ac_power (env : CondEnv) : Except String Bool :=
  match env.powerStatus with
  | some st => .ok (st == 1)
  | none => .ok true

/-- `check_process_not_running` (src/conditions.rs lines 72-96, windows
branch): a `tasklist` spawn failure is treated as `Ok(true)`. -/
def check_process_not_running (env : CondEnv) (processName : String) :
    Except String Bool :=
  match env.tasklistOutput processName with
  | some out =>
    .ok (!(stringContains (toLowerAscii out) (toLowerAscii processName)))
  | none => .ok true

/-- `evaluate_single_condition` (src/conditions.rs lines 17-25). -/
def evaluate_single_condition (env : CondEnv) (c : Condition) :
    Except String Bool :=
  match c with
  | .networkAvailable => check_network_available env
  | .onAcPower => check_on_ac_power env
  | .processNotRunning n => check_process_not_running env n
  | .onlyIfPathExists => .ok true -- path check is done in executor
  | .idleForSeconds _ => .ok true -- TODO in source: idle check not implemented

/-- `evaluate_conditions` (src/conditions.rs lines 7-14): AND over the list,
returning `Ok(false)` at the first false condition, propagating any error. -/
def evaluate_conditions (env : CondEnv) : List Condition → Except String Bool
  | [] => .ok true
  | c :: rest =>
    match evaluate_single_condition env c with
    | .error e => .error e
    | .ok b => if b then evaluate_conditions env rest else .ok false

/-- The boolean a single condition evaluates to (used to state that
`evaluate_single_condition` never errors). -/
def condHolds (env : CondEnv) (c : Condition) : Bool :=
  match c with
  | .networkAvailable =>
    match env.dnsResolves with
    | some b => b
    | none => false
  | .onAcPower =>
    match env.powerStatus with
    | some st => st == 1
    | none => true
  | .processNotRunning n =>
    match env.tasklistOutput n with
    | some out => !(stringContains (toLowerAscii out) (toLowerAscii n))
    | none => true
  | .onlyIfPathExists => true
  | .idleForSeconds _ => true

/-! ## ProcessExecutor (src/executor.rs) -/

inductive ExecutorError
  | pathNotFound (path : String)
  | openFailed (msg : String)
  | timeout (seconds : Nat)
  | exitCodeFailed (code : Int)
  | ioError (msg : String)
deriving DecidableEq

/-- The `thiserror` `Display` strings of `ExecutorError`. -/
def ExecutorError.toMessage : ExecutorError → String
  | .pathNotFound p => "Path không tồn tại: " ++ p
  | .openFailed m => "Không thể mở: " ++ m
  | .timeout s => "Process timeout sau " ++ toString s ++ " giây"
  | .exitCodeFailed c => "Exit code " ++ toString c ++ " không nằm trong danh sách success"
  | .ioError m => "IO error: " ++ m

structure ExecutionResult where
  success : Bool
  exit_code : Option Int
  error_message : Option String
  output : Option String
deriving DecidableEq

/-- Outcome of the timed `try_wait` polling loop: the process exited before
the timeout with the given code (`status.code().unwrap_or(-1)` already
applied), the timeout elapsed, or `try_wait` itself failed. -/
inductive WaitOutcome
  | exited (code : Int)
  | timedOut
  | ioErr (msg : String)
deriving DecidableEq

/-- OS effects used by the executor.  `spawnError` is the outcome of
`cmd.spawn()`, `outputResult` of `cmd.output()` (exit code, stdout, stderr),
`shellStatus` of the `cmd /C start` status for shell opens. -/
structure ExecEnv where
  pathExists : String → Bool
  processRunning : String → Bool
  spawnError : Option String
  waitOutcome : WaitOutcome
  outputResult : Except String (Int × String × String)
  shellStatus : Except String Int

/-- Characters after the last path separator. -/
def afterLastSep : List Char → List Char → List Char
  | [], acc => acc
  | c :: rest, acc =>
    if c = '\\' || c = '/' then afterLastSep rest []
    else afterLastSep rest (acc ++ [c])

/-- `get_process_name` (src/executor.rs lines 82-88): `Path::file_name` with
a fallback to the whole path, modelled for ordinary file paths. -/
def get_process_name (path : String) : String :=
  let tail := afterLastSep path.toList []
  if tail.isEmpty then path else String.mk tail

/-- `check_exit_code` (src/executor.rs lines 311-316). -/
def check_exit_code (code : Int) (successCodes : Option (List Int)) : Bool :=
  match successCodes with
  | some codes => codes.contains code
  | none => code == 0

/-- `execute_exe` (src/executor.rs lines 134-251).  Argument tokenisation,
working directory and window style affect only how the child is spawned,
not the value returned, so they do not appear in the result. -/
def execute_exe (env : ExecEnv) (task : Task) :
    Except ExecutorError ExecutionResult :=
  match task.wait_policy with
  | .dontWait =>
    match env.spawnError with
    | some e => .error (.ioError e)
    | none => .ok ⟨true, none, none, none⟩
  | .waitForExit (some t) =>
    match env.spawnError with
    | some e => .error (.ioError e)
    | none =>
      match env.waitOutcome with
      | .timedOut => .error (.timeout t)
      | .ioErr e => .error (.ioError e)
      | .exited code =>
        let s := check_exit_code code task.success_exit_codes
        .ok ⟨s, some code, if s then none else some ("Exit code: " ++ toString code), none⟩
  | .waitForExit none =>
    match env.outputResult with
    | .error e => .error (.ioError e)
    | .ok (code, stdout, stderr) =>
      let s := check_exit_code code task.success_exit_codes
      let outStr := if stderr = "" then stdout
        else stdout ++ "\n--- STDERR ---\n" ++ stderr
      .ok ⟨s, some code, if s then none else some ("Exit code: " ++ toString code), some outStr⟩

/-- `execute_shell_open` (src/executor.rs lines 254-277, windows branch). -/
def execute_shell_open (env : ExecEnv) (_task : Task) :
    Except ExecutorError ExecutionResult :=
  match env.shellStatus with
  | .error e => .error (.ioError e)
  | .ok code =>
    let s := code == 0
    .ok ⟨s, some code, if s then none else some "Failed to open", none⟩

/-- The branch on target type at src/executor.rs lines 73-78. -/
def execute_task_dispatch (env : ExecEnv) (task : Task) :
    Except ExecutorError ExecutionResult :=
  match task.target_type with
  | .exe => execute_exe env task
  | _ => execute_shell_open env task

/-- `matches!(task.target_type, Exe | File | Folder | Shortcut)`
(src/executor.rs line 37). -/
def needsPath : TargetType → Bool
  | .exe | .file | .folder | .shortcut => true
  | .url => false

/-- src/executor.rs lines 44-78: the if-running handling for EXE targets
followed by the dispatch on target type.  `kill_process` and the grace
sleep in the `Restart` arm have no bearing on the returned value. -/
def execute_task_after_path (env : ExecEnv) (task : Task) :
    Except ExecutorError ExecutionResult :=
  if task.target_type = .exe then
    let pname := get_process_name task.path_or_url
    if env.processRunning pname then
      match task.if_running_action with
      | .skip =>
        .ok ⟨true, none, some ("Skipped - " ++ pname ++ " already running"), none⟩
      | .restart => execute_task_dispatch env task
      | .runAnyway => execute_task_dispatch env task
    else execute_task_dispatch env task
  else execute_task_dispatch env task

/-- `execute_task` (src/executor.rs lines 33-79): the path-existence check
for file-based targets runs before anything else. -/
def execute_task (env : ExecEnv) (task : Task) :
    Except ExecutorError ExecutionResult :=
  if needsPath task.target_type && !(env.pathExists task.path_or_url) then
    .error (.pathNotFound task.path_or_url)
  else execute_task_after_path env task

/-! ## SchedulerRunner, functional view (src/scheduler_runner.rs)

The scheduler loop awaits every dispatch to completion (`tick` awaits
`execute_task_if_ready`, which calls the blocking `execute_task`), so one
dispatch is a single function from runner state to runner state. -/

/-- The persistence collaborator's visible state: the `run_logs` and
`task_state` tables. -/
structure Db where
  logs : List RunLog
  states : List TaskState
deriving DecidableEq

structure Runner where
  db : Db
  running : List String
  maxParallel : Nat
deriving DecidableEq

/-- Models the derived `Debug` formatting used for `RunLog.trigger_type`
(`format!("\x7b:?\x7d", trigger)`); only the variant name is modelled, no
claim depends on the exact text. -/
def triggerDebug : Trigger → String
  | .onLogin .. => "OnLogin"
  | .oncePerDay .. => "OncePerDay"
  | .dailyAt .. => "DailyAt"
  | .interval .. => "Interval"

/-- `log_skip` (src/scheduler_runner.rs lines 191-210): appends exactly one
skipped `RunLog`.  `runId` stands for the generated UUID, `now` for
`Utc::now()`; an `insert_log` failure is swallowed, the appended row models
the log the code produces. -/
def log_skip (r : Runner) (task : Task) (trigger : Trigger) (reason : SkipReason)
    (runId : String) (now : Int) : Runner :=
  let log : RunLog :=
    { run_id := runId, task_id := task.id, task_name := task.name
      trigger_type := triggerDebug trigger, scheduled_time_utc := some now
      started_at_utc := now, finished_at_utc := some now, status := .skipped
      skip_reason := some reason, exit_code := none, error_message := none
      output := none }
  { r with db := { r.db with logs := r.db.logs ++ [log] } }

/-- The `(status, error_message, exit_code, output)` match of
`log_execution` (src/scheduler_runner.rs lines 219-228). -/
def executionLogFields (result : Except ExecutorError ExecutionResult) :
    RunStatus × Option String × Option Int × Option String :=
  match result with
  | .ok res =>
    if res.success then (.success, none, res.exit_code, res.output)
    else (.failed, res.error_message, res.exit_code, res.output)
  | .error e => (.failed, some e.toMessage, none, none)

/-- `log_execution` (src/scheduler_runner.rs lines 213-248): appends exactly
one `RunLog` per execution attempt. -/
def log_execution (r : Runner) (task : Task) (trigger : Trigger)
    (result : Except ExecutorError ExecutionResult) (runId : String)
    (now : Int) : Runner :=
  let f := executionLogFields result
  let log : RunLog :=
    { run_id := runId, task_id := task.id, task_name := task.name
      trigger_type := triggerDebug trigger, scheduled_time_utc := some now
      started_at_utc := now, finished_at_utc := some now, status := f.1
      skip_reason := none, exit_code := f.2.2.1, error_message := f.2.1
      output := f.2.2.2 }
  { r with db := { r.db with logs := r.db.logs ++ [log] } }

/-- The `TaskState` value that `update_task_state`
(src/scheduler_runner.rs lines 251-272) constructs. -/
def updatedTaskState (task : Task) (result : Except ExecutorError ExecutionResult)
    (todayLocal now : Int) : TaskState :=
  { task_id := task.id
    last_run_date_local := some todayLocal
    last_run_at_utc := some now
    last_result := some (match result with
      | .ok res => if res.success then RunResult.success else RunResult.failed
      | .error _ => RunResult.failed)
    last_error := match result with
      | .ok _ => none
      | .error e => some e.toMessage
    next_run_at_utc := none }

/-- `update_task_state` (src/scheduler_runner.rs lines 251-272): the code
binds the new state to `_state` and ends in `// TODO: Save state to
database` — nothing is persisted, so the runner is returned unchanged. -/
def update_task_state (r : Runner) (_task : Task)
    (_result : Except ExecutorError ExecutionResult) : Runner := r

/-- `get_task_state` (src/scheduler_runner.rs lines 103-113): returns a
fresh default state — `// TODO: Actually fetch from database` — ignoring
whatever the `task_state` table holds. -/
def get_task_state (_r : Runner) (taskId : String) : TaskState :=
  { task_id := taskId, last_run_date_local := none, last_run_at_utc := none
    last_result := none, last_error := none, next_run_at_utc := none }

/-- `execute_task_if_ready` (src/scheduler_runner.rs lines 116-188) as the
single serialized dispatch the awaited code performs: singleton gate, max
parallel gate, condition gate, then insert / execute / remove / log /
update-state. -/
def execute_task_if_ready (cenv : CondEnv) (xenv : ExecEnv) (r : Runner)
    (task : Task) (trigger : Trigger) (runId : String) (now : Int) :
    Runner × Except String Unit :=
  if task.singleton && r.running.contains task.id then
    (log_skip r task trigger .singleton runId now, .ok ())
  else if r.running.length ≥ r.maxParallel then
    (r, .ok ()) -- queued: no log, no state change; retried next tick
  else
    match evaluate_conditions cenv task.conditions with
    | .ok false => (log_skip r task trigger .conditionFail runId now, .ok ())
    | .error e => (r, .error e)
    | .ok true =>
      let r1 := { r with running := r.running.insert task.id }
      let result := execute_task xenv task
      let r2 := { r1 with running := r1.running.erase task.id }
      let r3 := log_execution r2 task trigger result runId now
      (update_task_state r3 task result, .ok ())

/-! ## run_task_now (src/commands.rs lines 110-176) -/

/-- Modelled from the spec: `Database::update_task_state` is called from
src/commands.rs line 169 but storage.rs does not define it; the spec's
persistence collaborator exposes a per-task "state upsert", so the row for
`st.task_id` is replaced. -/
def db_update_task_state (db : Db) (st : TaskState) : Db :=
  { db with states := st :: db.states.filter (fun s => !(s.task_id == st.task_id)) }

/-- `run_task_now` (src/commands.rs lines 110-176): finds the task, calls
`execute_task` directly (no trigger and no condition evaluation), appends
one manual `RunLog`, upserts the task state, and maps the result. -/
def run_task_now (xenv : ExecEnv) (db : Db) (tasks : List Task) (id : String)
    (runId : String) (now : Int) (todayLocal : Int) : Db × Except String Unit :=
  match tasks.find? (fun t => t.id == id) with
  | none => (db, .error "Task not found")
  | some task =>
    let result := execute_task xenv task
    let f := executionLogFields result
    let log : RunLog :=
      { run_id := runId, task_id := task.id, task_name := task.name
        trigger_type := "Manual", scheduled_time_utc := none
        started_at_utc := now, finished_at_utc := some now, status := f.1
        skip_reason := none, exit_code := f.2.2.1, error_message := f.2.1
        output := f.2.2.2 }
    let db1 := { db with logs := db.logs ++ [log] }
    let lastResult : Option RunResult :=
      match f.1 with
      | .success => some .success
      | .failed => some .failed
      | .skipped => some .skipped
      | .started => none
    let st : TaskState :=
      { task_id := task.id, last_run_date_local := some todayLocal
        last_run_at_utc := some now, last_result := lastResult
        last_error := f.2.1, next_run_at_utc := none }
    let db2 := db_update_task_state db1 st
    match result with
    | .ok res =>
      if res.success then (db2, .ok ())
      else (db2, .error (res.error_message.getD "Task failed"))
    | .error e => (db2, .error e.toMessage)

/-! ## Concurrency model

The scheduler loop serializes its own dispatches (`run` awaits `tick`,
`tick` awaits each `execute_task_if_ready`, and `execute_task` blocks), so
there is a single dispatcher stepping through the phases of
`execute_task_if_ready`, each mutex-protected block being one atomic step.
`run_task_now` commands run concurrently with the loop and with each other
and never touch `running_tasks`; they are modelled as manual threads. -/

/-- Program counter of the single dispatcher inside
`execute_task_if_ready`, named after the code's critical sections. -/
inductive DPhase
  | idle
  | atSingleton (t : Task) -- lines 122-130: lock, contains check
  | atMaxGate (t : Task)   -- lines 132-139: lock, length check
  | atConds (t : Task)     -- lines 141-153
  | atInsert (t : Task)    -- lines 158-162: lock, insert
  | atExec (t : Task)      -- lines 164-173: delay + blocking execute_task
  | atRemove (t : Task)    -- lines 175-179: lock, remove
  | atLog (t : Task)       -- lines 181-186: log + (no-op) state update
deriving DecidableEq

structure SysState where
  queue : List Task          -- due (task, trigger) work of the tick loop
  phase : DPhase
  running : List String      -- the mutex-protected in-flight id set
  manualsPending : List Task -- run_task_now invocations not yet executing
  manualsActive : List Task  -- run_task_now invocations inside execute_task
  logCount : Nat
deriving DecidableEq

/-- Interleaving semantics: one atomic step per lock acquisition or local
action.  Manual steps (`run_task_now`) never read or write `running`. -/
inductive Step (cenv : CondEnv) (maxParallel : Nat) : SysState → SysState → Prop
  | startDispatch (t : Task) (q : List Task) (run : List String)
      (mp ma : List Task) (lc : Nat) :
      Step cenv maxParallel ⟨t :: q, .idle, run, mp, ma, lc⟩
        ⟨q, .atSingleton t, run, mp, ma, lc⟩
  | singletonSkip (t : Task) (q : List Task) (run : List String)
      (mp ma : List Task) (lc : Nat) :
      t.singleton = true → t.id ∈ run →
      Step cenv maxParallel ⟨q, .atSingleton t, run, mp, ma, lc⟩
        ⟨q, .idle, run, mp, ma, lc + 1⟩
  | singletonPass (t : Task) (q : List Task) (run : List String)
      (mp ma : List Task) (lc : Nat) :
      ¬(t.singleton = true ∧ t.id ∈ run) →
      Step cenv maxParallel ⟨q, .atSingleton t, run, mp, ma, lc⟩
        ⟨q, .atMaxGate t, run, mp, ma, lc⟩
  | maxDefer (t : Task) (q : List Task) (run : List String)
      (mp ma : List Task) (lc : Nat) :
      run.length ≥ maxParallel →
      Step cenv maxParallel ⟨q, .atMaxGate t, run, mp, ma, lc⟩
        ⟨q, .idle, run, mp, ma, lc⟩
  | maxPass (t : Task) (q : List Task) (run : List String)
      (mp ma : List Task) (lc : Nat) :
      run.length < maxParallel →
      Step cenv maxParallel ⟨q, .atMaxGate t, run, mp, ma, lc⟩
        ⟨q, .atConds t, run, mp, ma, lc⟩
  | condsFalse (t : Task) (q : List Task) (run : List String)
      (mp ma : List Task) (lc : Nat) :
      evaluate_conditions cenv t.conditions = .ok false →
      Step cenv maxParallel ⟨q, .atConds t, run, mp, ma, lc⟩
        ⟨q, .idle, run, mp, ma, lc + 1⟩
  | condsErr (t : Task) (q : List Task) (run : List String)
      (mp ma : List Task) (lc : Nat) (e : String) :
      evaluate_conditions cenv t.conditions = .error e →
      Step cenv maxParallel ⟨q, .atConds t, run, mp, ma, lc⟩
        ⟨q, .idle, run, mp, ma, lc⟩
  | condsTrue (t : Task) (q : List Task) (run : List String)
      (mp ma : List Task) (lc : Nat) :
      evaluate_conditions cenv t.conditions = .ok true →
      Step cenv maxParallel ⟨q, .atConds t, run, mp, ma, lc⟩
        ⟨q, .atInsert t, run, mp, ma, lc⟩
  | insertStep (t : Task) (q : List Task) (run : List String)
      (mp ma : List Task) (lc : Nat) :
      Step cenv maxParallel ⟨q, .atInsert t, run, mp, ma, lc⟩
        ⟨q, .atExec t, run.insert t.id, mp, ma, lc⟩
  | execDone (t : Task) (q : List Task) (run : List String)
      (mp ma : List Task) (lc : Nat) :
      Step cenv maxParallel ⟨q, .atExec t, run, mp, ma, lc⟩
        ⟨q, .atRemove t, run, mp, ma, lc⟩
  | removeStep (t : Task) (q : List Task) (run : List String)
      (mp ma : List Task) (lc : Nat) :
      Step cenv maxParallel ⟨q, .atRemove t, run, mp, ma, lc⟩
        ⟨q, .atLog t, run.erase t.id, mp, ma, lc⟩
  | logStep (t : Task) (q : List Task) (run : List String)
      (mp ma : List Task) (lc : Nat) :
      Step cenv maxParallel ⟨q, .atLog t, run, mp, ma, lc⟩
        ⟨q, .idle, run, mp, ma, lc + 1⟩
  | manualStart (t : Task) (q : List Task) (ph : DPhase) (run : List String)
      (mp ma : List Task) (lc : Nat) :
      Step cenv maxParallel ⟨q, ph, run, t :: mp, ma, lc⟩
        ⟨q, ph, run, mp, t :: ma, lc⟩
  | manualFinish (t : Task) (q : List Task) (ph : DPhase) (run : List String)
      (mp ma : List Task) (lc : Nat) :
      Step cenv maxParallel ⟨q, ph, run, mp, t :: ma, lc⟩
        ⟨q, ph, run, mp, ma, lc + 1⟩

def Reachable (cenv : CondEnv) (maxParallel : Nat) (init s : SysState) : Prop :=
  Relation.ReflTransGen (Step cenv maxParallel) init s

/-- Number of scheduler-loop executions of `id` currently inside
`execute_task` (the code serializes dispatches, so this is 0 or 1). -/
def schedInFlight (s : SysState) (id : String) : Nat :=
  match s.phase with
  | .atExec t => if t.id = id then 1 else 0
  | _ => 0

/-- Number of `run_task_now` executions of `id` currently inside
`execute_task`. -/
def manualInFlight (s : SysState) (id : String) : Nat :=
  (s.manualsActive.filter (fun t => t.id == id)).length

/-- Total concurrent executions of a task id. -/
def inFlight (s : SysState) (id : String) : Nat :=
  schedInFlight s id + manualInFlight s id

/-! ## Invariant of the dispatch gates -/

/-- Auxiliary invariant carried by every reachable state: the in-flight set
is bounded by `max_parallel`, the bound is strict while the dispatcher sits
between the max-parallel gate and the insertion, and an executing task's id
is in the set. -/
def GateInv (maxParallel : Nat) (s : SysState) : Prop :=
  s.running.length ≤ maxParallel
  ∧ (∀ t, s.phase = .atConds t → s.running.length < maxParallel)
  ∧ (∀ t, s.phase = .atInsert t → s.running.length < maxParallel)
  ∧ (∀ t, s.phase = .atExec t → t.id ∈ s.running)

/-! ## Concrete fixtures used by counterexamples and witnesses -/

/-- An executor environment in which every OS interaction succeeds. -/
def xenvAllOk : ExecEnv :=
  { pathExists := fun _ => true, processRunning := fun _ => false
    spawnError := none, waitOutcome := .exited 0
    outputResult := .ok (0, "", ""), shellStatus := .ok 0 }

/-- An executor environment in which no path exists. -/
def xenvNoPath : ExecEnv :=
  { pathExists := fun _ => false, processRunning := fun _ => false
    spawnError := none, waitOutcome := .exited 0
    outputResult := .ok (0, "", ""), shellStatus := .ok 0 }

/-- An executor environment in which the target process is already alive. -/
def xenvProcAlive : ExecEnv :=
  { pathExists := fun _ => true, processRunning := fun _ => true
    spawnError := none, waitOutcome := .exited 0
    outputResult := .ok (0, "", ""), shellStatus := .ok 0 }

/-- Condition probes all healthy. -/
def cenvUp : CondEnv :=
  { dnsResolves := some true, powerStatus := some 1
    tasklistOutput := fun _ => none }

/-- Condition probes with the network check failing. -/
def cenvNetDown : CondEnv :=
  { dnsResolves := some false, powerStatus := some 1
    tasklistOutput := fun _ => none }

def baseTask : Task :=
  { id := "task-0", enabled := true, name := "base", description := none
    target_type := .url, path_or_url := "https://example.com", args := none
    working_dir := none, start_delay_seconds := 0, run_window_style := .normal
    wait_policy := .dontWait, singleton := true, priority := none
    max_retries := 0, retry_backoff_seconds := 10, success_exit_codes := none
    misfire_policy := .runImmediately, if_running_action := .skip
    triggers := [], conditions := [], created_at_utc := 0, updated_at_utc := 0 }

/-- A singleton task with no conditions, used for the C1 scenario. -/
def taskSingleton : Task := { baseTask with id := "task-s", name := "s" }

/-- A URL task guarded by `NetworkAvailable`, used for the C4 scenario. -/
def taskC4 : Task :=
  { baseTask with id := "task-c4", name := "c4", conditions := [.networkAvailable] }

/-- An EXE task whose file is missing, used for the C9 witness. -/
def taskMissing : Task :=
  { baseTask with
    id := "task-m"
    name := "m"
    target_type := TargetType.exe
    path_or_url := "C:\\missing\\tool.exe"
    singleton := false }

/-- An EXE task with `if_running_action = Skip`, used for the C4 witness. -/
def taskExeSkip : Task :=
  { baseTask with
    id := "task-e"
    name := "e"
    target_type := TargetType.exe
    path_or_url := "C:\\apps\\tool.exe" }

/-- Initial state of the C1 scenario: one due singleton dispatch queued and
one pending manual run of the same task. -/
def c1Init : SysState := ⟨[taskSingleton], .idle, [], [taskSingleton], [], 0⟩

/-- The overlapping state the C1 scenario reaches: the scheduler is inside
`execute_task` on the singleton task while a `run_task_now` invocation of
the same task also executes. -/
def c1Bad : SysState :=
  ⟨[], .atExec taskSingleton, ["task-s"], [], [taskSingleton], 0⟩

/-! ## Helper lemmas -/

theorem evaluate_single_condition_eq (env : CondEnv) (c : Condition) :
    evaluate_single_condition env c = .ok (condHolds env c) := by
  cases c with
  | networkAvailable =>
    cases h : env.dnsResolves <;>
      simp [evaluate_single_condition, check_network_available, condHolds, h]
  | onAcPower =>
    cases h : env.powerStatus <;>
      simp [evaluate_single_condition, check_on_ac_power, condHolds, h]
  | processNotRunning n =>
    cases h : env.tasklistOutput n <;>
      simp [evaluate_single_condition, check_process_not_running, condHolds, h]
  | onlyIfPathExists => rfl
  | idleForSeconds s => rfl

/-! ## Claim theorems -/

/-- Claim C8: `should_skip` returns false for every scheduled/now pair under
`RunImmediately`, and under `SkipIfLateOverSeconds(threshold)` it returns
true iff `now - scheduled` strictly exceeds the threshold; in particular
lateness of exactly 60 against a 60-second threshold is not a skip while 61
is. -/
theorem C8_should_skip_semantics :
    (∀ scheduled now : Int, check_misfire .runImmediately scheduled now = false)
    ∧ (∀ (thr : Nat) (scheduled now : Int),
        check_misfire (.skipIfLateOverSeconds thr) scheduled now = true ↔
          now - scheduled > (thr : Int))
    ∧ (∀ T : Int, check_misfire (.skipIfLateOverSeconds 60) T (T + 60) = false)
    ∧ (∀ T : Int, check_misfire (.skipIfLateOverSeconds 60) T (T + 61) = true) := by
  refine ⟨fun _ _ => rfl, fun thr s n => by simp [check_misfire], fun T => ?_, fun T => ?_⟩
  · simp [check_misfire]
  · simp [check_misfire]

/-- Claim C10: `evaluate_conditions` always returns `Ok` — it computes the
short-circuit AND of its conditions' boolean outcomes and never produces an
`Err`, whatever the probe outcomes are, so the hard-error dispatch-abort
path is unreachable. -/
theorem C10_conditions_never_error (env : CondEnv) (conds : List Condition) :
    evaluate_conditions env conds = .ok (conds.all (condHolds env)) := by
  induction conds with
  | nil => rfl
  | cons c rest ih =>
    simp only [evaluate_conditions, evaluate_single_condition_eq]
    cases hc : condHolds env c
    · simp [hc]
    · simpa [hc] using ih

/-- Claim C6: for an enabled Interval trigger with `every_seconds = 60` and
no jitter, with the last run recorded at `T`, evaluation at `now = T + 30`
returns exactly `T + 60`; a period below 60 seconds yields none; and in
general the next run is `(last run, or now if never run) + period`,
collapsed to `now` when already past. -/
theorem C6_interval_next_run :
    (∀ (T : Int) (st : TaskState) (nanos : Nat), st.last_run_at_utc = some T →
      compute_next_run 0 (.interval true 60 none) (T + 30) st nanos = .ok (some (T + 60)))
    ∧ (∀ (tz : Int) (enabled : Bool) (every : Nat) (jitter : Option Nat)
        (nowLocal : Int) (st : TaskState) (nanos : Nat), every < 60 →
        compute_next_run tz (.interval enabled every jitter) nowLocal st nanos = .ok none)
    ∧ (∀ (tz : Int) (every : Nat) (nowLocal : Int) (st : TaskState) (nanos : Nat),
        60 ≤ every →
        compute_next_run tz (.interval true every none) nowLocal st nanos =
          .ok (some (if st.last_run_at_utc.getD (nowLocal - tz) + (every : Int) ≤ nowLocal - tz
                     then nowLocal - tz
                     else st.last_run_at_utc.getD (nowLocal - tz) + (every : Int)))) := by
  refine ⟨?_, ?_, ?_⟩
  · intro T st nanos hlast
    simp only [compute_next_run, hlast]
    norm_num
  · intro tz enabled every jitter nowLocal st nanos hlt
    simp only [compute_next_run]
    rw [if_pos (Or.inr hlt)]
  · intro tz every nowLocal st nanos hge
    simp only [compute_next_run]
    rw [if_neg (by simp; omega)]
    split <;> rfl

/-- Witness for C6 at `T = 100`. -/
theorem C6_interval_next_run_witness :
    (TaskState.mk "t" none (some 100) none none none).last_run_at_utc = some 100
    ∧ (30 : Nat) < 60
    ∧ compute_next_run 0 (.interval true 60 none) (100 + 30)
        (TaskState.mk "t" none (some 100) none none none) 0 = .ok (some (100 + 60))
    ∧ compute_next_run 0 (.interval true 30 none) 0
        (TaskState.mk "t" none (some 100) none none none) 0 = .ok none :=
  ⟨rfl, by decide,
    C6_interval_next_run.1 100 (TaskState.mk "t" none (some 100) none none none) 0 rfl,
    C6_interval_next_run.2.1 0 true 30 none 0
      (TaskState.mk "t" none (some 100) none none none) 0 (by decide)⟩

/-- Counterexample to claim C3: an enabled Interval trigger with a zero
jitter bound drives `rand_jitter` into `subsec_nanos() % 0`, which panics
in Rust (remainder by zero) instead of resolving to "never fires". -/
theorem C3_counterexample :
    compute_next_run 0 (.interval true 60 (some 0)) 0
      (TaskState.mk "t0" none none none none none) 0 = .error .remainderByZero := by
  rfl

/-- Claim C3 amended: a time string that fails "HH:MM" parsing makes
`compute_next_run` silently return none, and no trigger makes it panic
except the one degenerate case the code does not guard: an enabled Interval
trigger with period ≥ 60 and `jitter_seconds = Some 0`, whose remainder by
zero panics. -/
theorem C3_amended_malformed_never_fatal :
    (∀ (tz : Int) (enabled : Bool) (s : String) (ds : Option (List String))
        (nowLocal : Int) (st : TaskState) (nanos : Nat), parseHHMM s = none →
        compute_next_run tz (.dailyAt enabled s ds) nowLocal st nanos = .ok none)
    ∧ (∀ (tz : Int) (trig : Trigger) (nowLocal : Int) (st : TaskState) (nanos : Nat),
        (∃ k, compute_next_run tz trig nowLocal st nanos = .error k) ↔
          ∃ every, trig = .interval true every (some 0) ∧ 60 ≤ every) := by
  constructor
  · intro tz enabled s ds nowLocal st nanos hparse
    cases enabled
    · rfl
    · simp only [compute_next_run, hparse]
      rfl
  · intro tz trig nowLocal st nanos
    cases trig with
    | onLogin enabled delay =>
      simp only [compute_next_run]
      constructor
      · rintro ⟨k, hk⟩
        split at hk <;> cases hk
      · rintro ⟨every, h, -⟩
        cases h
    | oncePerDay enabled ear ds =>
      simp only [compute_next_run]
      constructor
      · rintro ⟨k, hk⟩
        split at hk
        · cases hk
        · split at hk
          · cases hk
          · split at hk
            · cases hk
            · split at hk <;> cases hk
      · rintro ⟨every, h, -⟩
        cases h
    | dailyAt enabled ts ds =>
      simp only [compute_next_run]
      constructor
      · rintro ⟨k, hk⟩
        split at hk
        · cases hk
        · split at hk <;> cases hk
      · rintro ⟨every, h, -⟩
        cases h
    | interval enabled every jitter =>
      constructor
      · rintro ⟨k, hk⟩
        cases jitter with
        | none =>
          simp only [compute_next_run] at hk
          split at hk
          · cases hk
          · split at hk <;> cases hk
        | some j =>
          simp only [compute_next_run, rand_jitter] at hk
          split at hk
          · cases hk
          · next hcond =>
            push_neg at hcond
            obtain ⟨hen, hev⟩ := hcond
            have henT : enabled = true := by cases enabled <;> simp_all
            subst henT
            rcases Nat.eq_zero_or_pos j with hj | hj
            · subst hj
              exact ⟨every, rfl, by omega⟩
            · rw [if_neg (by omega)] at hk
              simp at hk
              split at hk <;> cases hk
      · rintro ⟨e, he, hge⟩
        simp only [compute_next_run]
        injection he with h1 h2 h3
        subst h1
        subst h2
        subst h3
        refine ⟨.remainderByZero, ?_⟩
        rw [if_neg (by simp; omega)]
        rfl

/-- Witness for the amended C3: `"9h30"` fails "HH:MM" parsing and the
DailyAt trigger silently computes to none. -/
theorem C3_amended_malformed_never_fatal_witness :
    parseHHMM "9h30" = none
    ∧ compute_next_run 0 (.dailyAt true "9h30" none) 0
        (TaskState.mk "t" none none none none none) 0 = .ok none :=
  ⟨rfl, C3_amended_malformed_never_fatal.1 0 true "9h30" none 0
    (TaskState.mk "t" none none none none none) 0 rfl⟩

/-- Claim C5 (evaluating the code at its failing behaviour): after a
dispatched execution attempt nothing is persisted — `update_task_state`
returns the runner unchanged (its body ends in `// TODO: Save state to
database`), `get_task_state` ignores the stored `task_state` rows and
returns a blank default (`// TODO: Actually fetch from database`), and a
whole dispatch never modifies the `task_state` table; so the next tick does
not see last run date/instant/result/error, contradicting the claim. -/
theorem C5_task_state_never_persisted :
    (∀ (r : Runner) (task : Task) (result : Except ExecutorError ExecutionResult),
        update_task_state r task result = r)
    ∧ (∀ (r : Runner) (id : String),
        get_task_state r id = TaskState.mk id none none none none none)
    ∧ (∀ (cenv : CondEnv) (xenv : ExecEnv) (r : Runner) (task : Task)
        (trigger : Trigger) (runId : String) (now : Int),
        ((execute_task_if_ready cenv xenv r task trigger runId now).1).db.states
          = r.db.states) := by
  refine ⟨fun _ _ _ => rfl, fun _ _ => rfl, ?_⟩
  intro cenv xenv r task trigger runId now
  simp only [execute_task_if_ready]
  split
  · rfl
  · split
    · rfl
    · split <;> rfl

theorem execute_task_path_missing (xenv : ExecEnv) (task : Task)
    (htype : needsPath task.target_type = true)
    (hpath : xenv.pathExists task.path_or_url = false) :
    execute_task xenv task = .error (.pathNotFound task.path_or_url) := by
  simp [execute_task, htype, hpath]

/-- Claim C9: for targets that need filesystem presence (Exe, File, Folder,
Shortcut) with a missing path, `execute_task` fails with `PathNotFound`
whatever the liveness probe or launch would have done; a URL target can
never produce `PathNotFound`; and a dispatched attempt that passes the
gates appends exactly one RunLog recording that failure. -/
theorem C9_path_not_found :
    (∀ (xenv : ExecEnv) (task : Task), needsPath task.target_type = true →
        xenv.pathExists task.path_or_url = false →
        execute_task xenv task = .error (.pathNotFound task.path_or_url))
    ∧ (∀ (xenv : ExecEnv) (task : Task) (p : String), task.target_type = .url →
        execute_task xenv task ≠ .error (.pathNotFound p))
    ∧ (∀ (cenv : CondEnv) (xenv : ExecEnv) (r : Runner) (task : Task)
        (trigger : Trigger) (runId : String) (now : Int),
        needsPath task.target_type = true →
        xenv.pathExists task.path_or_url = false →
        ¬(task.singleton = true ∧ r.running.contains task.id = true) →
        r.running.length < r.maxParallel →
        evaluate_conditions cenv task.conditions = .ok true →
        ∃ log : RunLog,
          (execute_task_if_ready cenv xenv r task trigger runId now).1.db.logs
            = r.db.logs ++ [log]
          ∧ log.status = .failed
          ∧ log.error_message = some ("Path không tồn tại: " ++ task.path_or_url)) := by
  refine ⟨execute_task_path_missing, ?_, ?_⟩
  · intro xenv task p hurl
    simp only [execute_task, execute_task_after_path, execute_task_dispatch, hurl, needsPath]
    cases h : xenv.shellStatus <;> simp [execute_shell_open, h]
  · intro cenv xenv r task trigger runId now htype hpath hsing hlen hconds
    have hexec := execute_task_path_missing xenv task htype hpath
    have hsingB : (task.singleton && r.running.contains task.id) = false := by
      cases hs : task.singleton <;> cases hc : r.running.contains task.id <;> simp_all
    simp only [execute_task_if_ready, hsingB, hconds, hexec]
    rw [if_neg (by simp), if_neg (not_le.mpr hlen)]
    exact ⟨_, rfl, rfl, rfl⟩

/-- Witness for C9 on a missing `C:\missing\tool.exe` EXE task and a URL
task. -/
theorem C9_path_not_found_witness :
    needsPath taskMissing.target_type = true
    ∧ xenvNoPath.pathExists taskMissing.path_or_url = false
    ∧ execute_task xenvNoPath taskMissing = .error (.pathNotFound "C:\\missing\\tool.exe")
    ∧ baseTask.target_type = .url
    ∧ execute_task xenvAllOk baseTask ≠ .error (.pathNotFound "x")
    ∧ ∃ log : RunLog,
        (execute_task_if_ready cenvUp xenvNoPath (Runner.mk (Db.mk [] []) [] 3)
            taskMissing (.onLogin true 0) "r" 0).1.db.logs = [] ++ [log]
          ∧ log.status = .failed
          ∧ log.error_message = some ("Path không tồn tại: " ++ taskMissing.path_or_url) :=
  ⟨rfl, rfl,
    C9_path_not_found.1 xenvNoPath taskMissing rfl rfl,
    rfl,
    C9_path_not_found.2.1 xenvAllOk baseTask "x" rfl,
    C9_path_not_found.2.2 cenvUp xenvNoPath (Runner.mk (Db.mk [] []) [] 3)
      taskMissing (.onLogin true 0) "r" 0 rfl rfl (by decide) (by decide) rfl⟩

/-- Counterexample to claim C4: `taskC4` requires `NetworkAvailable`, the
probe reports the network down (`evaluate_conditions` is `Ok(false)`), yet
`run_task_now` executes the task anyway and logs a Success — `run_task_now`
never evaluates conditions. -/
theorem C4_counterexample :
    evaluate_conditions cenvNetDown taskC4.conditions = .ok false
    ∧ (run_task_now xenvAllOk (Db.mk [] []) [taskC4] "task-c4" "r1" 0 0).2 = .ok ()
    ∧ ((run_task_now xenvAllOk (Db.mk [] []) [taskC4] "task-c4" "r1" 0 0).1.logs.map
        RunLog.status) = [.success] := by
  refine ⟨rfl, rfl, rfl⟩

/-- Claim C4 amended: `run_now` bypasses trigger evaluation and also
bypasses condition evaluation (its outcome is independent of the task's
conditions); it does still honor the if-running-action, which
`execute_task` applies before launching an EXE target. -/
theorem C4_amended_run_now :
    (∀ (xenv : ExecEnv) (db : Db) (task : Task) (id runId : String)
        (now today : Int) (newConds : List Condition),
        run_task_now xenv db [{ task with conditions := newConds }] id runId now today
          = run_task_now xenv db [task] id runId now today)
    ∧ (∀ (xenv : ExecEnv) (task : Task),
        task.target_type = .exe →
        xenv.pathExists task.path_or_url = true →
        xenv.processRunning (get_process_name task.path_or_url) = true →
        task.if_running_action = .skip →
        execute_task xenv task = .ok
          (ExecutionResult.mk true none
            (some ("Skipped - " ++ get_process_name task.path_or_url ++ " already running"))
            none)) := by
  constructor
  · intro xenv db task id runId now today newConds
    by_cases h : (task.id == id) = true
    · simp only [run_task_now]
      rw [List.find?_cons_of_pos _ (by exact h), List.find?_cons_of_pos _ (by exact h)]
      rfl
    · simp only [run_task_now]
      rw [List.find?_cons_of_neg _ (by exact h), List.find?_cons_of_neg _ (by exact h)]
  · intro xenv task htype hpath hrun hact
    simp [execute_task, execute_task_after_path, needsPath, htype, hpath, hrun, hact]

/-- Witness for the amended C4: a running EXE target with
`if_running_action = Skip` soft-skips, and swapping the conditions of the
C4 task does not change what `run_task_now` does. -/
theorem C4_amended_run_now_witness :
    run_task_now xenvAllOk (Db.mk [] []) [{ taskC4 with conditions := [] }] "task-c4" "r1" 0 0
        = run_task_now xenvAllOk (Db.mk [] []) [taskC4] "task-c4" "r1" 0 0
    ∧ taskExeSkip.target_type = .exe
    ∧ xenvProcAlive.pathExists taskExeSkip.path_or_url = true
    ∧ xenvProcAlive.processRunning (get_process_name taskExeSkip.path_or_url) = true
    ∧ taskExeSkip.if_running_action = .skip
    ∧ execute_task xenvProcAlive taskExeSkip = .ok
        (ExecutionResult.mk true none
          (some ("Skipped - " ++ get_process_name taskExeSkip.path_or_url ++ " already running"))
          none) :=
  ⟨C4_amended_run_now.1 xenvAllOk (Db.mk [] []) taskC4 "task-c4" "r1" 0 0 [],
    rfl, rfl, rfl, rfl,
    C4_amended_run_now.2 xenvProcAlive taskExeSkip rfl rfl rfl rfl⟩

theorem parseHHMM_lt (s : String) (t : Nat) (h : parseHHMM s = some t) :
    t < 1440 := by
  simp only [parseHHMM] at h
  split at h
  · split at h
    · split at h
      · split at h
        · next hrange =>
          injection h with h'
          omega
        · cases h
      · cases h
    · cases h
  · cases h

/-- A closed form of `dailyAtCandidate` with no day-of-week filter. -/
theorem dailyAtCandidate_none_eq (tz nowLocal : Int) (t off : Nat) :
    dailyAtCandidate tz none nowLocal t off =
      (if (nowLocal + (off : Int) * 86400) / 86400 * 86400 + (t : Int) * 60 ≤ nowLocal
       then none
       else some ((nowLocal + (off : Int) * 86400) / 86400 * 86400 + (t : Int) * 60 - tz)) :=
  rfl

/-- Claim C7: for an enabled DailyAt trigger with a parseable "HH:MM" time
and no day-of-week filter, `compute_next_run` returns some UTC instant
strictly after now and at most 7 days later. -/
theorem C7_daily_at_window (tz : Int) (timeStr : String) (t : Nat)
    (nowLocal : Int) (st : TaskState) (nanos : Nat)
    (h : parseHHMM timeStr = some t) :
    ∃ r, compute_next_run tz (.dailyAt true timeStr none) nowLocal st nanos
        = .ok (some r) ∧ nowLocal - tz < r ∧ r ≤ nowLocal - tz + 7 * 86400 := by
  have ht : t < 1440 := parseHHMM_lt _ _ h
  simp only [compute_next_run, h]
  have hrange : List.range 8 = [0, 1, 2, 3, 4, 5, 6, 7] := rfl
  rw [hrange]
  simp only [List.findSome?, dailyAtCandidate_none_eq]
  by_cases h0 : (nowLocal + ((0 : Nat) : Int) * 86400) / 86400 * 86400 + (t : Int) * 60 ≤ nowLocal
  · have h1 : ¬((nowLocal + ((1 : Nat) : Int) * 86400) / 86400 * 86400 + (t : Int) * 60 ≤ nowLocal) := by
      omega
    rw [if_pos h0, if_neg h1]
    exact ⟨_, rfl, by omega, by omega⟩
  · rw [if_neg h0]
    exact ⟨_, rfl, by omega, by omega⟩

/-- Witness for C7 at time "08:30", now = 0. -/
theorem C7_daily_at_window_witness :
    parseHHMM "08:30" = some 510
    ∧ ∃ r, compute_next_run 0 (.dailyAt true "08:30" none) 0
        (TaskState.mk "t" none none none none none) 0 = .ok (some r)
        ∧ 0 - 0 < r ∧ r ≤ 0 - 0 + 7 * 86400 :=
  ⟨rfl, C7_daily_at_window 0 "08:30" 510 0
    (TaskState.mk "t" none none none none none) 0 rfl⟩

theorem step_preserves_GateInv (cenv : CondEnv) (maxParallel : Nat)
    (s s' : SysState) (hstep : Step cenv maxParallel s s')
    (hinv : GateInv maxParallel s) : GateInv maxParallel s' := by
  obtain ⟨h1, h2, h3, h4⟩ := hinv
  cases hstep with
  | startDispatch t q run mp ma lc =>
    refine ⟨h1, ?_, ?_, ?_⟩ <;> intro u hu <;> simp at hu
  | singletonSkip t q run mp ma lc hs hm =>
    refine ⟨h1, ?_, ?_, ?_⟩ <;> intro u hu <;> simp at hu
  | singletonPass t q run mp ma lc hns =>
    refine ⟨h1, ?_, ?_, ?_⟩ <;> intro u hu <;> simp at hu
  | maxDefer t q run mp ma lc hge =>
    refine ⟨h1, ?_, ?_, ?_⟩ <;> intro u hu <;> simp at hu
  | maxPass t q run mp ma lc hlt =>
    refine ⟨h1, fun u _ => hlt, ?_, ?_⟩ <;> intro u hu <;> simp at hu
  | condsFalse t q run mp ma lc hc =>
    refine ⟨h1, ?_, ?_, ?_⟩ <;> intro u hu <;> simp at hu
  | condsErr t q run mp ma lc e hc =>
    refine ⟨h1, ?_, ?_, ?_⟩ <;> intro u hu <;> simp at hu
  | condsTrue t q run mp ma lc hc =>
    refine ⟨h1, ?_, fun u _ => h2 t rfl, ?_⟩ <;> intro u hu <;> simp at hu
  | insertStep t q run mp ma lc =>
    have hlt : run.length < maxParallel := h3 t rfl
    refine ⟨?_, ?_, ?_, ?_⟩
    · show (List.insert t.id run).length ≤ maxParallel
      by_cases hm : t.id ∈ run
      · rw [List.insert_of_mem hm]; omega
      · rw [List.length_insert_of_not_mem hm]; omega
    · intro u hu; simp at hu
    · intro u hu; simp at hu
    · intro u hu
      injection hu with h
      subst h
      show t.id ∈ List.insert t.id run
      exact List.mem_insert_self _ _
  | execDone t q run mp ma lc =>
    refine ⟨h1, ?_, ?_, ?_⟩ <;> intro u hu <;> simp at hu
  | removeStep t q run mp ma lc =>
    refine ⟨le_trans (List.erase_sublist _ _).length_le h1, ?_, ?_, ?_⟩ <;>
      intro u hu <;> simp at hu
  | logStep t q run mp ma lc =>
    refine ⟨h1, ?_, ?_, ?_⟩ <;> intro u hu <;> simp at hu
  | manualStart t q ph run mp ma lc =>
    exact ⟨h1, h2, h3, h4⟩
  | manualFinish t q ph run mp ma lc =>
    exact ⟨h1, h2, h3, h4⟩

theorem reachable_GateInv (cenv : CondEnv) (maxParallel : Nat) (init s : SysState)
    (hinit : GateInv maxParallel init)
    (hreach : Reachable cenv maxParallel init s) : GateInv maxParallel s := by
  induction hreach with
  | refl => exact hinit
  | tail _ hstep ih => exact step_preserves_GateInv _ _ _ _ hstep ih

theorem initial_GateInv (maxParallel : Nat) (init : SysState)
    (hph : init.phase = .idle) (hrun : init.running = []) :
    GateInv maxParallel init := by
  refine ⟨by rw [hrun]; simp, ?_, ?_, ?_⟩ <;>
    intro u hu <;> rw [hph] at hu <;> simp at hu

/-- Claim C2: in every reachable state of the dispatch protocol — under any
interleaving with manual runs and any burst of due tasks in the queue — the
in-flight `running_tasks` set never exceeds `max_parallel`; the deferral
branch of `execute_task_if_ready` leaves the runner untouched (no log, no
state change), and a due Interval task with a recorded last run stays due
at any later tick, so a deferred task is reconsidered, never dropped. -/
theorem C2_max_parallel :
    (∀ (cenv : CondEnv) (maxParallel : Nat) (init s : SysState),
        init.phase = .idle → init.running = [] →
        Reachable cenv maxParallel init s → s.running.length ≤ maxParallel)
    ∧ (∀ (cenv : CondEnv) (xenv : ExecEnv) (r : Runner) (task : Task)
        (trigger : Trigger) (runId : String) (now : Int),
        (task.singleton && r.running.contains task.id) = false →
        r.running.length ≥ r.maxParallel →
        execute_task_if_ready cenv xenv r task trigger runId now = (r, .ok ()))
    ∧ (∀ (tz : Int) (every : Nat) (T nowA nowB : Int) (st : TaskState) (nanos : Nat),
        st.last_run_at_utc = some T → 60 ≤ every → nowA ≤ nowB →
        (∃ rA, compute_next_run tz (.interval true every none) nowA st nanos
            = .ok (some rA) ∧ rA ≤ nowA - tz) →
        ∃ rB, compute_next_run tz (.interval true every none) nowB st nanos
            = .ok (some rB) ∧ rB ≤ nowB - tz) := by
  refine ⟨?_, ?_, ?_⟩
  · intro cenv maxP init s hph hrun hreach
    exact (reachable_GateInv cenv maxP init s (initial_GateInv maxP init hph hrun) hreach).1
  · intro cenv xenv r task trigger runId now hsing hlen
    simp only [execute_task_if_ready, hsing]
    rw [if_neg (by simp), if_pos hlen]
  · intro tz every T nowA nowB st nanos hlast hev hle hdue
    obtain ⟨rA, hA, hAle⟩ := hdue
    have hcond : ¬(true = false ∨ every < 60) := by simp; omega
    simp only [compute_next_run, hlast, Option.getD_some] at hA ⊢
    rw [if_neg hcond] at hA
    rw [if_neg hcond]
    by_cases hc : T + (every : Int) ≤ nowA - tz
    · rw [if_pos (by omega)]
      exact ⟨nowB - tz, rfl, by omega⟩
    · rw [if_neg hc] at hA
      injection hA with h
      injection h with h2
      exact absurd (h2 ▸ hAle) hc

/-- Witness for C2: the empty idle state, a full runner deferring, and a due
interval task staying due. -/
theorem C2_max_parallel_witness :
    (SysState.mk [] .idle [] [] [] 0).running.length ≤ 3
    ∧ execute_task_if_ready cenvUp xenvAllOk (Runner.mk (Db.mk [] []) ["other"] 0)
        baseTask (.onLogin true 0) "r" 0 = (Runner.mk (Db.mk [] []) ["other"] 0, .ok ())
    ∧ ∃ rB, compute_next_run 0 (.interval true 60 none) 70
        (TaskState.mk "t" none (some 0) none none none) 0 = .ok (some rB) ∧ rB ≤ 70 - 0 :=
  ⟨C2_max_parallel.1 cenvUp 3 (SysState.mk [] .idle [] [] [] 0)
      (SysState.mk [] .idle [] [] [] 0) rfl rfl Relation.ReflTransGen.refl,
    C2_max_parallel.2.1 cenvUp xenvAllOk (Runner.mk (Db.mk [] []) ["other"] 0)
      baseTask (.onLogin true 0) "r" 0 rfl (by decide),
    C2_max_parallel.2.2 0 60 0 60 70 (TaskState.mk "t" none (some 0) none none none) 0
      rfl (by decide) (by decide) ⟨60, rfl, by decide⟩⟩

/-- Counterexample to claim C1: from a state with one due dispatch of the
singleton task and one pending manual run of the same task, the system
reaches a state where the scheduler loop is executing the task (its id in
the in-flight set) while the manual run also executes it — two overlapping
executions of a singleton task id, because `run_task_now` never touches the
in-flight set. -/
theorem C1_counterexample :
    taskSingleton.singleton = true
    ∧ Reachable cenvUp 3 c1Init c1Bad
    ∧ inFlight c1Bad taskSingleton.id = 2 := by
  refine ⟨rfl, ?_, rfl⟩
  have s1 : Step cenvUp 3 c1Init
      ⟨[], .atSingleton taskSingleton, [], [taskSingleton], [], 0⟩ :=
    Step.startDispatch taskSingleton [] [] [taskSingleton] [] 0
  have s2 : Step cenvUp 3 ⟨[], .atSingleton taskSingleton, [], [taskSingleton], [], 0⟩
      ⟨[], .atMaxGate taskSingleton, [], [taskSingleton], [], 0⟩ :=
    Step.singletonPass taskSingleton [] [] [taskSingleton] [] 0 (by simp)
  have s3 : Step cenvUp 3 ⟨[], .atMaxGate taskSingleton, [], [taskSingleton], [], 0⟩
      ⟨[], .atConds taskSingleton, [], [taskSingleton], [], 0⟩ :=
    Step.maxPass taskSingleton [] [] [taskSingleton] [] 0 (by decide)
  have s4 : Step cenvUp 3 ⟨[], .atConds taskSingleton, [], [taskSingleton], [], 0⟩
      ⟨[], .atInsert taskSingleton, [], [taskSingleton], [], 0⟩ :=
    Step.condsTrue taskSingleton [] [] [taskSingleton] [] 0 rfl
  have s5 : Step cenvUp 3 ⟨[], .atInsert taskSingleton, [], [taskSingleton], [], 0⟩
      ⟨[], .atExec taskSingleton, List.insert taskSingleton.id [], [taskSingleton], [], 0⟩ :=
    Step.insertStep taskSingleton [] [] [taskSingleton] [] 0
  have s6 : Step cenvUp 3
      ⟨[], .atExec taskSingleton, List.insert taskSingleton.id [], [taskSingleton], [], 0⟩
      ⟨[], .atExec taskSingleton, List.insert taskSingleton.id [], [], [taskSingleton], 0⟩ :=
    Step.manualStart taskSingleton [] (.atExec taskSingleton)
      (List.insert taskSingleton.id []) [] [] 0
  exact Relation.ReflTransGen.head s1 (Relation.ReflTransGen.head s2
    (Relation.ReflTransGen.head s3 (Relation.ReflTransGen.head s4
      (Relation.ReflTransGen.head s5 (Relation.ReflTransGen.single s6)))))

/-- Claim C1 amended: scheduler-loop dispatches are fully serialized (the
loop awaits each execution), so among scheduler executions at most one is
in flight and in particular a singleton task never has two overlapping
scheduler executions; the in-flight set always contains the id of the task
the loop is executing.  A manual `run_task_now` execution, however, starts
unconditionally whatever the in-flight set holds and without changing it,
so it can overlap a scheduler execution of the same singleton task. -/
theorem C1_amended_singleton :
    (∀ (s : SysState) (id : String), schedInFlight s id ≤ 1)
    ∧ (∀ (cenv : CondEnv) (maxParallel : Nat) (init s : SysState),
        init.phase = .idle → init.running = [] →
        Reachable cenv maxParallel init s →
        ∀ t, s.phase = .atExec t → t.id ∈ s.running)
    ∧ (∀ (cenv : CondEnv) (maxParallel : Nat) (q : List Task) (ph : DPhase)
        (run : List String) (mp ma : List Task) (lc : Nat) (t : Task),
        Step cenv maxParallel ⟨q, ph, run, t :: mp, ma, lc⟩
          ⟨q, ph, run, mp, t :: ma, lc⟩) := by
  refine ⟨?_, ?_, ?_⟩
  · intro s id
    unfold schedInFlight
    split
    · split <;> omega
    · omega
  · intro cenv maxP init s hph hrun hreach t hphase
    exact (reachable_GateInv cenv maxP init s
      (initial_GateInv maxP init hph hrun) hreach).2.2.2 t hphase
  · intro cenv maxP q ph run mp ma lc t
    exact Step.manualStart t q ph run mp ma lc

/-- Witness for the amended C1 at the empty idle state and the executing
state of the C1 scenario. -/
theorem C1_amended_singleton_witness :
    schedInFlight c1Bad "task-s" ≤ 1
    ∧ (∀ t, (SysState.mk [] .idle [] [] [] 0).phase = .atExec t →
        t.id ∈ (SysState.mk [] .idle [] [] [] 0).running)
    ∧ Step cenvUp 3 (SysState.mk [] .idle [] [taskSingleton] [] 0)
        (SysState.mk [] .idle [] [] [taskSingleton] 0) :=
  ⟨C1_amended_singleton.1 c1Bad "task-s",
    C1_amended_singleton.2.1 cenvUp 3 (SysState.mk [] .idle [] [] [] 0)
      (SysState.mk [] .idle [] [] [] 0) rfl rfl Relation.ReflTransGen.refl,
    C1_amended_singleton.2.2 cenvUp 3 [] .idle [] [] [] 0 taskSingleton⟩

end RoutineRunner
